import Mathlib

set_option linter.unusedVariables false

/-!
Shallow embedding of the bearer-token middleware in
pkg/middleware/jwt_session.go and of the provider code in
providers/bitbucket.go of todokku/oauth2-proxy, together with proofs
about the claims on that code.

Conventions: Go byte strings are Lean String values (all inputs of
interest are ASCII); a Go (value, error) pair becomes Except or a pair
with an Option valued error component; the file system and the network
are passed in as explicit arguments.
-/

/-- Decides whether a character belongs to the character class
[a-zA-Z0-9_-] of jwtRegexFormat (jwt_session.go line 16). -/
def isB64UrlChar (c : Char) : Bool :=
  let n := c.toNat
  decide ((65 ≤ n ∧ n ≤ 90) ∨ (97 ≤ n ∧ n ≤ 122) ∨ (48 ≤ n ∧ n ≤ 57) ∨ n = 95 ∨ n = 45)

/-- Splits a character list at every dot, keeping empty segments, so that
a list with exactly two dots yields exactly three segments. -/
def splitDots : List Char → List (List Char)
  | [] => [[]]
  | c :: cs =>
    if c = '.' then [] :: splitDots cs
    else
      match splitDots cs with
      | [] => [[c]]
      | seg :: rest => (c :: seg) :: rest

/-- One segment of the form eyJ[a-zA-Z0-9_-]* . -/
def isEyJSegment : List Char → Bool
  | 'e' :: 'y' :: 'J' :: rest => rest.all isB64UrlChar
  | _ => false

/-- Decides membership in the language of jwtRegexFormat
(jwt_session.go line 16), the anchored regular expression
eyJ[a-zA-Z0-9_-]*\.eyJ[a-zA-Z0-9_-]*\.[a-zA-Z0-9_-]+ : since the
character class excludes the dot, a match is exactly a string with two
dots whose first two segments begin with eyJ followed by characters of
the class and whose last segment is a nonempty run of such characters. -/
def matchesJwtRegex (s : String) : Bool :=
  match splitDots s.data with
  | [a, b, c] => isEyJSegment a && isEyJSegment b && !c.isEmpty && c.all isB64UrlChar
  | _ => false

/-- The shape as worded in the claim about token extraction: three
segments of URL-safe base64 characters separated by dots. Written from
the claim text, to be compared with matchesJwtRegex. -/
def claimedJwtShape (s : String) : Bool :=
  match splitDots s.data with
  | [a, b, c] =>
    !a.isEmpty && a.all isB64UrlChar && !b.isEmpty && b.all isB64UrlChar &&
    !c.isEmpty && c.all isB64UrlChar
  | _ => false

/-- Splits at the first occurrence of sep, none when sep does not occur.
This mirrors strings.SplitN(s, sep, 2) for a one character separator:
none corresponds to the one element result of SplitN. -/
def splitFirst (sep : Char) : List Char → Option (List Char × List Char)
  | [] => none
  | c :: cs =>
    if c = sep then some ([], cs)
    else
      match splitFirst sep cs with
      | some (l, r) => some (c :: l, r)
      | none => none

/-- strings.SplitN(s, sep, 2) for a one character separator, on String. -/
def splitN2 (sep : Char) (s : String) : Option (String × String) :=
  match splitFirst sep s.data with
  | some (l, r) => some (⟨l⟩, ⟨r⟩)
  | none => none

/-- The value of one standard base64 alphabet character. -/
def b64Val (c : Char) : Option Nat :=
  let n := c.toNat
  if 65 ≤ n ∧ n ≤ 90 then some (n - 65)
  else if 97 ≤ n ∧ n ≤ 122 then some (n - 97 + 26)
  else if 48 ≤ n ∧ n ≤ 57 then some (n - 48 + 52)
  else if n = 43 then some 62
  else if n = 47 then some 63
  else none

/-- Decodes whole base64 quanta (four characters to three bytes), with
padding by = allowed only at the end of the final quantum; none models
the CorruptInputError of encoding/base64. -/
def b64Quanta : List Char → Option (List Nat)
  | [] => some []
  | c1 :: c2 :: c3 :: c4 :: rest =>
    match b64Val c1, b64Val c2 with
    | some v1, some v2 =>
      if c3 = '=' then
        if c4 = '=' ∧ rest = [] then some [v1 * 4 + v2 / 16]
        else none
      else
        match b64Val c3 with
        | some v3 =>
          if c4 = '=' then
            if rest = [] then some [v1 * 4 + v2 / 16, v2 % 16 * 16 + v3 / 4]
            else none
          else
            match b64Val c4 with
            | some v4 =>
              match b64Quanta rest with
              | some bs =>
                some ((v1 * 4 + v2 / 16) :: (v2 % 16 * 16 + v3 / 4) :: (v3 % 4 * 64 + v4) :: bs)
              | none => none
            | none => none
        | none => none
    | _, _ => none
  | _ => none

/-- base64.StdEncoding.DecodeString: carriage return and line feed
characters are skipped, the rest must form whole padded quanta. The
position carrying message of CorruptInputError is abstracted to a fixed
string (no claim depends on its text). -/
def base64DecodeString (s : String) : Except String (List Nat) :=
  match b64Quanta (s.data.filter fun c => decide (c ≠ '\r' ∧ c ≠ '\n')) with
  | some bs => .ok bs
  | none => .error "illegal base64 data at input byte"

/-- The Go conversion string(b) of the decoded bytes; every byte becomes
one character, which agrees with Go byte indexing for the ASCII inputs
the middleware compares against. -/
def bytesToString (bs : List Nat) : String := ⟨bs.map Char.ofNat⟩

/-- Lines 107 to 116 of jwt_session.go: candidate selection from a
decoded Basic user and password pair; none means the if and else-if
chain left rawBearerToken empty. -/
def basicPairToken (user password : String) : Option String :=
  if matchesJwtRegex user then
    if password = "" ∨ password = "x-oauth-basic" then some user
    else none
  else if matchesJwtRegex password then some password
  else none

/-- The Basic fallback as worded in the claim about it: if the username
matches the JWT shape and the password is empty or the sentinel, the
username is the candidate; otherwise, if the password matches the JWT
shape, the password is. Written from the claim text, to be compared
with basicPairToken. -/
def claimedBasicPairToken (user password : String) : Option String :=
  if matchesJwtRegex user ∧ (password = "" ∨ password = "x-oauth-basic") then some user
  else if matchesJwtRegex password then some password
  else none

/-- Scheme aware candidate extraction, lines 92 to 117 of
jwt_session.go: ok none means the whole chain left rawBearerToken
empty, error propagates the early returns inside the Basic branch. -/
def extractToken (scheme cred : String) : Except String (Option String) :=
  if scheme = "Bearer" ∧ matchesJwtRegex cred then .ok (some cred)
  else if scheme = "Basic" then
    match base64DecodeString cred with
    | .error e => .error e
    | .ok bs =>
      match splitN2 ':' (bytesToString bs) with
      | none => .error ("invalid format " ++ bytesToString bs)
      | some (user, password) => .ok (basicPairToken user password)
  else .ok none

/-- The function jwtSession.findBearerToken, lines 80 to 123 of
jwt_session.go; auth is the Authorization header of the request and
ok "" encodes the (empty, nil) result for an absent header. -/
def findBearerToken (auth : String) : Except String String :=
  if auth = "" then .ok ""
  else
    match splitN2 ' ' auth with
    | none => .error ("invalid authorization header " ++ auth)
    | some (scheme, cred) =>
      match extractToken scheme cred with
      | .error e => .error e
      | .ok r =>
        let rawBearerToken := r.getD ""
        if rawBearerToken = "" then
          .error "no valid bearer token found in authorization header"
        else .ok rawBearerToken

/-- The authenticated identity record, from the data model of the spec
(the middleware never inspects it; only the fields needed by the
claims are carried). -/
structure SessionState where
  user : String := ""
  email : String := ""
  accessToken : String := ""
  idToken : String := ""
  refreshToken : String := ""
  deriving DecidableEq, Repr

/-- Verified token claims, as delivered by an oidc.IDTokenVerifier. -/
structure IDToken where
  issuer : String := ""
  subject : String := ""
  deriving DecidableEq, Repr

/-- From pkg/apis/middleware/session.go: a token verifier paired with
the converter from the verified token to a SessionState. Verify is a
function returning the verified token, or none on rejection. -/
structure TokenToSessionLoader where
  verify : String → Option IDToken
  tokenToSession : String → IDToken → Except String SessionState

/-- The verifier loop of jwtSession.getJwtSession, lines 68 to 76 of
jwt_session.go; auth is the Authorization header used by the error on
line 76. -/
def tryLoaders (auth rawBearerToken : String) :
    List TokenToSessionLoader → Except String (Option SessionState)
  | [] => .error ("unable to verify jwt token " ++ auth)
  | loader :: rest =>
    match loader.verify rawBearerToken with
    | some idt =>
      match loader.tokenToSession rawBearerToken idt with
      | .ok s => .ok (some s)
      | .error e => .error e
    | none => tryLoaders auth rawBearerToken rest

/-- The function jwtSession.getJwtSession, lines 58 to 77 of
jwt_session.go; ok none is the (nil, nil) no-token result. -/
def getJwtSession (loaders : List TokenToSessionLoader) (auth : String) :
    Except String (Option SessionState) :=
  match findBearerToken auth with
  | .error e => .error e
  | .ok rawBearerToken =>
    if rawBearerToken = "" then .ok none
    else tryLoaders auth rawBearerToken loaders

/-- The per-request scope; the middleware only touches its Session
field. Modelled from the spec: GetRequestScope (whose definition is not
under src/) returns the per-request scope slot injected by the scope
initialization stage, or nil when the slot is absent, so loadSession
below receives that result as an Option valued argument. -/
structure RequestScope where
  Session : Option SessionState
  deriving DecidableEq, Repr

/-- The observable outcome of one pass of the loadSession handler:
either a Go panic, or normal completion recording how often the next
handler ran, the final scope session and the logged error, if any. -/
inductive LoadResult where
  | panicked (msg : String)
  | completed (nextCalls : Nat) (finalSession : Option SessionState) (logged : Option String)
  deriving DecidableEq, Repr

/-- The handler built by jwtSession.loadSession, lines 31 to 54 of
jwt_session.go. The check on line 34 reads if scope != nil and panics
with RequestScope not found, so a request WITH a scope panics there,
and a request without one passes the check and dereferences the nil
scope pointer at scope.Session on line 40, a Go runtime panic. -/
def loadSession (scope : Option RequestScope) (loaders : List TokenToSessionLoader)
    (auth : String) : LoadResult :=
  match scope with
  | some _ => .panicked "RequestScope not found"
  | none => .panicked "runtime error: invalid memory address or nil pointer dereference"

/-- Lines 40 to 53 of jwt_session.go, as they would execute on a non
nil scope value (in the code as written this block is unreachable,
since line 34 panics on every non nil scope). Line 42 calls next
without returning, so execution continues into the bearer lookup,
line 51 overwrites scope.Session unconditionally with the lookup
result, and line 52 calls next a second time. -/
def loadSessionBody (scope : RequestScope) (loaders : List TokenToSessionLoader)
    (auth : String) : LoadResult :=
  let firstCalls := if scope.Session.isSome then 1 else 0
  match getJwtSession loaders auth with
  | .error e =>
    .completed (firstCalls + 1) none
      (some ("Error retrieving session from token in Authorization header: " ++ e))
  | .ok s => .completed (firstCalls + 1) s none

/-- The fields of providers.ProviderData used by GetClientSecret
(provider data file, lines 188 to 221). -/
structure ProviderData where
  ClientSecret : String := ""
  ClientSecretFile : String := ""
  deriving DecidableEq, Repr

/-- ProviderData.GetClientSecret, lines 209 to 221; readFile models
ioutil.ReadFile, with none as a failed read. The path bearing read
error is logged, and the returned error is the fixed string on line
218. -/
def GetClientSecret (readFile : String → Option String) (p : ProviderData) :
    Except String String :=
  if p.ClientSecret ≠ "" ∨ p.ClientSecretFile = "" then .ok p.ClientSecret
  else
    match readFile p.ClientSecretFile with
    | some fileClientSecret => .ok fileClientSecret
    | none => .error "could not read client secret file"

/-- The configuration fields of providers.BitbucketProvider used by
GetEmailAddress. -/
structure BitbucketProvider where
  Team : String := ""
  Repository : String := ""
  deriving DecidableEq, Repr

/-- One entry of the emails response of the Bitbucket validate URL. -/
structure EmailRec where
  email : String
  primary : Bool
  deriving DecidableEq, Repr

/-- The primary email scan, lines 168 to 174 of bitbucket.go, paired
with the nil error of both return statements. -/
def firstPrimaryEmail (emails : List EmailRec) : String × Option String :=
  match emails.find? (fun e => e.primary) with
  | some e => (e.email, none)
  | none => ("", none)

/-- Lines 137 to 174 of bitbucket.go: the repository gate followed by
the primary email scan; the found flag of lines 155 to 161 is list
membership of the configured repository among the returned full
names. -/
def repoGateThenEmail (repository : String) (reposResp : Except String (List String))
    (emails : List EmailRec) : String × Option String :=
  if repository ≠ "" then
    match reposResp with
    | .error e => ("", some e)
    | .ok repos =>
      if repos.contains repository then firstPrimaryEmail emails
      else ("", none)
  else firstPrimaryEmail emails

/-- BitbucketProvider.GetEmailAddress, lines 79 to 175 of bitbucket.go.
Network effects are the three response arguments: the emails request
always runs first, the teams request runs only when Team is configured
and the repositories request only when Repository is configured; an
error value models a failed request (request construction failures
behave the same way). The found flag of lines 124 to 130 is list
membership of the configured team among the returned usernames. The
result is the returned pair of email and error. -/
def GetEmailAddress (p : BitbucketProvider) (emailsResp : Except String (List EmailRec))
    (teamsResp reposResp : Except String (List String)) : String × Option String :=
  match emailsResp with
  | .error e => ("", some e)
  | .ok emails =>
    if p.Team ≠ "" then
      match teamsResp with
      | .error e => ("", some e)
      | .ok teams =>
        if teams.contains p.Team then repoGateThenEmail p.Repository reposResp emails
        else ("", none)
    else repoGateThenEmail p.Repository reposResp emails

/-- A loader whose verifier rejects every token, for concrete
instantiations. -/
def rejectAllLoader : TokenToSessionLoader :=
  ⟨fun _ => none, fun _ _ => .error "unreachable converter"⟩

/-- A loader whose verifier accepts every token, for concrete
instantiations; its converter records the raw token and the verified
subject. -/
def acceptAllLoader : TokenToSessionLoader :=
  ⟨fun _ => some { issuer := "https://issuer2", subject := "subject2" },
   fun raw idt => .ok { user := idt.subject, accessToken := raw }⟩

/-- splitFirst finds the marked separator when the prefix is free of
it. -/
theorem splitFirst_sep_append (sep : Char) (w l : List Char) (hw : sep ∉ w) :
    splitFirst sep (w ++ sep :: l) = some (w, l) := by
  induction w with
  | nil => simp [splitFirst]
  | cons c cs ih =>
    have hc : ¬ c = sep := by
      intro h
      subst h
      exact hw (List.mem_cons_self _ _)
    have hcs : sep ∉ cs := fun h => hw (List.mem_cons_of_mem c h)
    simp [splitFirst, hc, ih hcs]

/-- SplitN with limit two splits a scheme free of blanks from the rest
of the header. -/
theorem splitN2_scheme_append (scheme rest : String) (hs : ' ' ∉ scheme.data) :
    splitN2 ' ' (scheme ++ " " ++ rest) = some (scheme, rest) := by
  obtain ⟨w⟩ := scheme
  obtain ⟨l⟩ := rest
  unfold splitN2
  have hdata : (String.mk w ++ " " ++ String.mk l).data = w ++ ' ' :: l := by
    show (w ++ [' ']) ++ l = w ++ ' ' :: l
    simp
  rw [hdata, splitFirst_sep_append ' ' w l hs]

/-- A header of the form scheme, blank, rest is not empty. -/
theorem scheme_header_ne_empty (scheme rest : String) :
    scheme ++ " " ++ rest ≠ "" := by
  obtain ⟨w⟩ := scheme
  obtain ⟨l⟩ := rest
  intro h
  have h2 : (w ++ [' ']) ++ l = ([] : List Char) := congrArg String.data h
  rcases List.append_eq_nil.mp h2 with ⟨h3, -⟩
  rcases List.append_eq_nil.mp h3 with ⟨-, h4⟩
  exact List.cons_ne_nil _ _ h4

/-- Strings matching the JWT regex are nonempty. -/
theorem matchesJwtRegex_ne_empty (t : String) (h : matchesJwtRegex t = true) : t ≠ "" := by
  intro he
  rw [he] at h
  exact absurd h (by decide)

/-- A Bearer header evaluates to the candidate token exactly when the
token matches jwtRegexFormat, and to the no-valid-token error
otherwise. -/
theorem findBearerToken_bearer_eval (t : String) :
    findBearerToken ("Bearer" ++ " " ++ t) =
      (if matchesJwtRegex t then .ok t
       else .error "no valid bearer token found in authorization header") := by
  unfold findBearerToken
  rw [if_neg (scheme_header_ne_empty "Bearer" t),
    splitN2_scheme_append "Bearer" t (by decide)]
  by_cases hm : matchesJwtRegex t
  · have hne : t ≠ "" := matchesJwtRegex_ne_empty t hm
    simp [extractToken, hm, hne]
  · simp [extractToken, hm]

/-- C6: for a Bearer header, the token is NOT taken as the candidate
exactly when it matches the shape worded in the claim (three dot
separated segments of URL-safe base64 characters): the token
AAA.BBB.CCC has that shape, yet findBearerToken rejects the header,
because jwtRegexFormat additionally requires the first two segments to
begin with eyJ. -/
theorem findBearerToken_claimed_shape_cex :
    claimedJwtShape "AAA.BBB.CCC" = true ∧
    findBearerToken "Bearer AAA.BBB.CCC" =
      .error "no valid bearer token found in authorization header" ∧
    matchesJwtRegex "AAA.BBB.CCC" = false :=
  ⟨rfl, rfl, rfl⟩

/-- C6 amended: for every Authorization header of the form
Bearer token, the token is taken as the bearer token candidate exactly
when it matches jwtRegexFormat, that is, three dot separated segments
of URL-safe base64 characters of which the first two begin with eyJ
and the third is nonempty; otherwise the no-valid-token error is
returned. -/
theorem findBearerToken_bearer_iff_regex (t : String) :
    findBearerToken ("Bearer" ++ " " ++ t) =
      (if matchesJwtRegex t then .ok t
       else .error "no valid bearer token found in authorization header") :=
  findBearerToken_bearer_eval t

/-- Evaluation of findBearerToken on an unparseable nonempty header. -/
theorem findBearerToken_eq_none (auth : String) (hauth : auth ≠ "")
    (hsplit : splitN2 ' ' auth = none) :
    findBearerToken auth = .error ("invalid authorization header " ++ auth) := by
  unfold findBearerToken
  rw [if_neg hauth, hsplit]

/-- Evaluation of findBearerToken on a parseable header, in terms of the
scheme aware extraction. -/
theorem findBearerToken_eq_some (auth scheme cred : String) (hauth : auth ≠ "")
    (hsplit : splitN2 ' ' auth = some (scheme, cred)) :
    findBearerToken auth =
      (match extractToken scheme cred with
       | .error e => .error e
       | .ok r =>
         if r.getD "" = "" then
           .error "no valid bearer token found in authorization header"
         else .ok (r.getD "")) := by
  unfold findBearerToken
  rw [if_neg hauth, hsplit]

/-- C7: findBearerToken classifies its input: an empty header yields
the empty token with no error; a nonempty header with no blank (so not
exactly scheme and credential) yields the invalid-header error; a
parseable header whose scheme aware extraction produces no candidate
yields the no-valid-token error; and a nonempty header never yields an
ok empty token, so absence of a candidate is never silent. -/
theorem findBearerToken_classification :
    (findBearerToken "" = .ok "") ∧
    (∀ auth : String, auth ≠ "" → splitN2 ' ' auth = none →
      findBearerToken auth = .error ("invalid authorization header " ++ auth)) ∧
    (∀ auth scheme cred : String, auth ≠ "" →
      splitN2 ' ' auth = some (scheme, cred) →
      extractToken scheme cred = .ok none →
      findBearerToken auth = .error "no valid bearer token found in authorization header") ∧
    (∀ auth t : String, auth ≠ "" → findBearerToken auth = .ok t → t ≠ "") := by
  refine ⟨rfl, findBearerToken_eq_none, ?_, ?_⟩
  · intro auth scheme cred hauth hsplit hext
    rw [findBearerToken_eq_some auth scheme cred hauth hsplit, hext]
    rfl
  · intro auth t hauth hok
    rcases hsplit : splitN2 ' ' auth with - | ⟨scheme, cred⟩
    · rw [findBearerToken_eq_none auth hauth hsplit] at hok
      exact absurd hok (by simp)
    · rw [findBearerToken_eq_some auth scheme cred hauth hsplit] at hok
      rcases hext : extractToken scheme cred with e | r <;> rw [hext] at hok <;>
        dsimp only at hok
      · exact absurd hok (by simp)
      · by_cases hr : r.getD "" = ""
        · rw [if_pos hr] at hok
          exact absurd hok (by simp)
        · rw [if_neg hr] at hok
          intro he
          injection hok with h2
          exact hr (h2.trans he)

/-- Witness for the classification theorem at concrete headers. -/
theorem findBearerToken_classification_witness :
    findBearerToken "" = .ok "" ∧
    findBearerToken "garbage" = .error ("invalid authorization header " ++ "garbage") ∧
    findBearerToken "Token abc" =
      .error "no valid bearer token found in authorization header" ∧
    "eyJ.eyJ.a" ≠ "" :=
  ⟨findBearerToken_classification.1,
   findBearerToken_classification.2.1 "garbage" (by decide) rfl,
   findBearerToken_classification.2.2.1 "Token abc" "Token" "abc" (by decide) rfl rfl,
   findBearerToken_classification.2.2.2 "Bearer eyJ.eyJ.a" "eyJ.eyJ.a" (by decide) rfl⟩

/-- tryLoaders skips every loader whose verifier rejects the token. -/
theorem tryLoaders_skip_rejecting (auth raw : String)
    (pre post : List TokenToSessionLoader)
    (hpre : ∀ l ∈ pre, l.verify raw = none) :
    tryLoaders auth raw (pre ++ post) = tryLoaders auth raw post := by
  induction pre with
  | nil => rfl
  | cons p ps ih =>
    have hp : p.verify raw = none := hpre p (List.mem_cons_self _ _)
    have hrest : ∀ l ∈ ps, l.verify raw = none :=
      fun l hl => hpre l (List.mem_cons_of_mem p hl)
    rw [List.cons_append]
    have step : tryLoaders auth raw (p :: (ps ++ post)) =
        match p.verify raw with
        | some idt =>
          (match p.tokenToSession raw idt with
           | .ok s => .ok (some s)
           | .error e => .error e)
        | none => tryLoaders auth raw (ps ++ post) := rfl
    rw [step, hp]
    dsimp only
    exact ih hrest

/-- C5: getJwtSession scans the configured loaders in order: rejections
by every loader of an initial segment do not stop the scan; the session
delivered is the one produced by the converter paired with the first
accepting verifier. -/
theorem getJwtSession_first_verifier_wins
    (pre post : List TokenToSessionLoader) (l : TokenToSessionLoader)
    (auth raw : String) (idt : IDToken)
    (hfind : findBearerToken auth = .ok raw) (hraw : raw ≠ "")
    (hpre : ∀ l2 ∈ pre, l2.verify raw = none)
    (hacc : l.verify raw = some idt) :
    getJwtSession (pre ++ l :: post) auth =
      (match l.tokenToSession raw idt with
       | .ok s => .ok (some s)
       | .error e => .error e) := by
  unfold getJwtSession
  rw [hfind]
  dsimp only
  rw [if_neg hraw, tryLoaders_skip_rejecting auth raw pre (l :: post) hpre]
  unfold tryLoaders
  rw [hacc]

/-- Witness: the first loader rejects every token, the second accepts,
and the resulting session is the one built by the second converter. -/
theorem getJwtSession_first_verifier_wins_witness :
    getJwtSession [rejectAllLoader, acceptAllLoader] "Bearer eyJ.eyJ.a" =
      .ok (some { user := "subject2", accessToken := "eyJ.eyJ.a" }) := by
  have h := getJwtSession_first_verifier_wins [rejectAllLoader] [] acceptAllLoader
    "Bearer eyJ.eyJ.a" "eyJ.eyJ.a" { issuer := "https://issuer2", subject := "subject2" }
    rfl (by decide)
    (by
      intro l2 hl2
      rw [List.mem_singleton] at hl2
      subst hl2
      rfl)
    rfl
  exact h

/-- C2: the error produced when no verifier accepts the token embeds the
full Authorization header and with it the raw rejected token: two
requests differing only in the rejected token produce different error
messages. -/
theorem getJwtSession_leaks_token_cex :
    getJwtSession [rejectAllLoader] ("Bearer " ++ "eyJ.eyJ.a") =
      .error ("unable to verify jwt token " ++ ("Bearer " ++ "eyJ.eyJ.a")) ∧
    getJwtSession [rejectAllLoader] ("Bearer " ++ "eyJ.eyJ.b") =
      .error ("unable to verify jwt token " ++ ("Bearer " ++ "eyJ.eyJ.b")) ∧
    ("unable to verify jwt token " ++ ("Bearer " ++ "eyJ.eyJ.a") : String) ≠
      "unable to verify jwt token " ++ ("Bearer " ++ "eyJ.eyJ.b") :=
  ⟨rfl, rfl, by decide⟩

/-- C2 amended: when a candidate token is present and every configured
verifier rejects it, getJwtSession returns the error whose message is
the fixed text unable to verify jwt token followed by the full header, so the raw
token is part of the externally visible error. -/
theorem getJwtSession_unverified_error (loaders : List TokenToSessionLoader)
    (auth raw : String)
    (hfind : findBearerToken auth = .ok raw) (hraw : raw ≠ "")
    (hrej : ∀ l ∈ loaders, l.verify raw = none) :
    getJwtSession loaders auth = .error ("unable to verify jwt token " ++ auth) := by
  unfold getJwtSession
  rw [hfind]
  dsimp only
  rw [if_neg hraw]
  have h := tryLoaders_skip_rejecting auth raw loaders [] hrej
  rw [List.append_nil] at h
  rw [h]
  rfl

/-- Witness: one rejecting loader, one concrete Bearer header. -/
theorem getJwtSession_unverified_error_witness :
    getJwtSession [rejectAllLoader] "Bearer eyJ.eyJ.a" =
      .error ("unable to verify jwt token " ++ "Bearer eyJ.eyJ.a") :=
  getJwtSession_unverified_error [rejectAllLoader] "Bearer eyJ.eyJ.a" "eyJ.eyJ.a"
    rfl (by decide)
    (by
      intro l hl
      rw [List.mem_singleton] at hl
      subst hl
      rfl)

/-- A Basic candidate is a string accepted by the regex, hence
nonempty. -/
theorem basicPairToken_some_ne (u p t : String) (h : basicPairToken u p = some t) :
    t ≠ "" := by
  unfold basicPairToken at h
  split_ifs at h with h1 h2 h3
  · rw [Option.some.injEq] at h
    subst h
    exact matchesJwtRegex_ne_empty u h1
  · rw [Option.some.injEq] at h
    subst h
    exact matchesJwtRegex_ne_empty p h3

/-- C4: the claim reads the Basic fallback as first username with empty
or sentinel password, otherwise any JWT shaped password. On the header
Basic base64 of eyJ.eyJ.a:eyJ.eyJ.b, whose username is JWT shaped and
whose password is a different JWT shaped string, that reading yields
the password, but findBearerToken returns the no-valid-token error: the
else-if on line 113 of jwt_session.go consults the password only when
the username does NOT match the regex. -/
theorem findBearerToken_basic_claim_cex :
    (base64DecodeString "ZXlKLmV5Si5hOmV5Si5leUouYg==").map bytesToString =
      .ok "eyJ.eyJ.a:eyJ.eyJ.b" ∧
    claimedBasicPairToken "eyJ.eyJ.a" "eyJ.eyJ.b" = some "eyJ.eyJ.b" ∧
    findBearerToken ("Basic " ++ "ZXlKLmV5Si5hOmV5Si5leUouYg==") =
      .error "no valid bearer token found in authorization header" :=
  ⟨rfl, rfl, rfl⟩

/-- C4 amended: for a Basic header decoding to user and password, a JWT
shaped username is the candidate exactly when the password is empty or
the sentinel x-oauth-basic, and NO candidate is produced for any other
password, even a JWT shaped one; the password is consulted, and is the
candidate when JWT shaped, only when the username does not match the
JWT shape; otherwise no candidate is produced and findBearerToken
returns the no-valid-token error. -/
theorem findBearerToken_basic_amended :
    (∀ user password : String,
      (matchesJwtRegex user = true → (password = "" ∨ password = "x-oauth-basic") →
        basicPairToken user password = some user) ∧
      (matchesJwtRegex user = true → ¬(password = "" ∨ password = "x-oauth-basic") →
        basicPairToken user password = none) ∧
      (matchesJwtRegex user = false → matchesJwtRegex password = true →
        basicPairToken user password = some password) ∧
      (matchesJwtRegex user = false → matchesJwtRegex password = false →
        basicPairToken user password = none)) ∧
    (∀ cred user password : String, ∀ bs : List Nat, ' ' ∉ cred.data →
      base64DecodeString cred = .ok bs →
      splitN2 ':' (bytesToString bs) = some (user, password) →
      findBearerToken ("Basic" ++ " " ++ cred) =
        (match basicPairToken user password with
         | some t => .ok t
         | none => .error "no valid bearer token found in authorization header")) := by
  constructor
  · intro user password
    refine ⟨fun h1 h2 => ?_, fun h1 h2 => ?_, fun h1 h2 => ?_, fun h1 h2 => ?_⟩ <;>
      simp [basicPairToken, h1, h2]
  · intro cred user password bs hsp hdec hsplit
    rw [findBearerToken_eq_some ("Basic" ++ " " ++ cred) "Basic" cred
      (scheme_header_ne_empty "Basic" cred)
      (splitN2_scheme_append "Basic" cred (by decide))]
    have hext : extractToken "Basic" cred = .ok (basicPairToken user password) := by
      unfold extractToken
      rw [if_neg (by simp), if_pos rfl, hdec]
      dsimp only
      rw [hsplit]
    rw [hext]
    rcases hb : basicPairToken user password with - | t
    · rfl
    · have hne : t ≠ "" := basicPairToken_some_ne user password t hb
      dsimp only
      rw [if_neg (by simpa using hne)]
      rfl

/-- Witness for the amended Basic fallback, at all three pair outcomes
and at a full header whose password is the candidate. -/
theorem findBearerToken_basic_amended_witness :
    basicPairToken "eyJ.eyJ.a" "x-oauth-basic" = some "eyJ.eyJ.a" ∧
    basicPairToken "eyJ.eyJ.a" "eyJ.eyJ.b" = none ∧
    basicPairToken "alice" "eyJ.eyJ.b" = some "eyJ.eyJ.b" ∧
    findBearerToken ("Basic" ++ " " ++ "YWxpY2U6ZXlKLmV5Si5i") = .ok "eyJ.eyJ.b" :=
  ⟨((findBearerToken_basic_amended.1 "eyJ.eyJ.a" "x-oauth-basic").1 rfl (Or.inr rfl)),
   ((findBearerToken_basic_amended.1 "eyJ.eyJ.a" "eyJ.eyJ.b").2.1 rfl (by decide)),
   ((findBearerToken_basic_amended.1 "alice" "eyJ.eyJ.b").2.2.1 (by decide) rfl),
   (findBearerToken_basic_amended.2 "YWxpY2U6ZXlKLmV5Si5i" "alice" "eyJ.eyJ.b"
     [97, 108, 105, 99, 101, 58, 101, 121, 74, 46, 101, 121, 74, 46, 98]
     (by decide) rfl rfl)⟩

/-- C1: the nil check of loadSession is inverted. A request whose scope
slot is present panics with RequestScope not found at the scope check
on line 34, the opposite of the claim; a request whose slot is absent
does abort, but through the nil pointer dereference of scope.Session on
line 40, not through the contract panic. -/
theorem loadSession_scope_check_inverted (scope : RequestScope)
    (loaders : List TokenToSessionLoader) (auth : String) :
    loadSession (some scope) loaders auth = .panicked "RequestScope not found" ∧
    loadSession none loaders auth =
      .panicked "runtime error: invalid memory address or nil pointer dereference" :=
  ⟨rfl, rfl⟩

/-- C3: a request whose scope already carries a session is never passed
on: loadSession panics at the inverted scope check. Moreover, even the
body after that check (lines 40 to 53, modelled by loadSessionBody)
would call the next handler twice and overwrite the existing session
with the bearer lookup result, because line 42 does not return. -/
theorem loadSession_existing_session_not_preserved (s : SessionState)
    (loaders : List TokenToSessionLoader) :
    loadSession (some ⟨some s⟩) loaders "" = .panicked "RequestScope not found" ∧
    loadSessionBody ⟨some s⟩ loaders "" = .completed 2 none none :=
  ⟨rfl, rfl⟩

/-- C8: on a request whose bearer lookup fails (here, the unparseable
header garbage), loadSession does not log and fall through: it panics
at the scope check whether the scope slot is present or absent. Only
the unreachable body (lines 45 to 53, modelled by loadSessionBody)
would log the lookup error and still call the next handler with no
session attached. -/
theorem loadSession_bearer_error_aborts (scope : RequestScope)
    (loaders : List TokenToSessionLoader) :
    getJwtSession loaders "garbage" =
      .error ("invalid authorization header " ++ "garbage") ∧
    loadSession (some scope) loaders "garbage" = .panicked "RequestScope not found" ∧
    loadSession none loaders "garbage" =
      .panicked "runtime error: invalid memory address or nil pointer dereference" ∧
    loadSessionBody ⟨none⟩ loaders "garbage" =
      .completed 1 none
        (some ("Error retrieving session from token in Authorization header: " ++
          ("invalid authorization header " ++ "garbage"))) :=
  ⟨rfl, rfl, rfl, rfl⟩

/-- GetClientSecret on an unreadable file returns the fixed error. -/
theorem GetClientSecret_read_fail (readFile : String → Option String)
    (p : ProviderData) (h1 : p.ClientSecret = "") (h2 : p.ClientSecretFile ≠ "")
    (h3 : readFile p.ClientSecretFile = none) :
    GetClientSecret readFile p = .error "could not read client secret file" := by
  unfold GetClientSecret
  rw [if_neg (fun hcon => hcon.elim (fun hne => hne h1) h2), h3]

/-- C9: GetClientSecret returns the in-memory ClientSecret whenever it
is nonempty or no ClientSecretFile is configured; otherwise it returns
the file contents, and on a failed read the fixed error message, which
depends neither on the path nor on any contents: two configurations
differing only in the unreadable path yield identical results. -/
theorem GetClientSecret_spec :
    (∀ (readFile : String → Option String) (p : ProviderData),
      p.ClientSecret ≠ "" ∨ p.ClientSecretFile = "" →
      GetClientSecret readFile p = .ok p.ClientSecret) ∧
    (∀ (readFile : String → Option String) (p : ProviderData) (c : String),
      p.ClientSecret = "" → p.ClientSecretFile ≠ "" →
      readFile p.ClientSecretFile = some c →
      GetClientSecret readFile p = .ok c) ∧
    (∀ (readFile : String → Option String) (p : ProviderData),
      p.ClientSecret = "" → p.ClientSecretFile ≠ "" →
      readFile p.ClientSecretFile = none →
      GetClientSecret readFile p = .error "could not read client secret file") ∧
    (∀ (rf1 rf2 : String → Option String) (p1 p2 : ProviderData),
      p1.ClientSecret = "" → p1.ClientSecretFile ≠ "" → rf1 p1.ClientSecretFile = none →
      p2.ClientSecret = "" → p2.ClientSecretFile ≠ "" → rf2 p2.ClientSecretFile = none →
      GetClientSecret rf1 p1 = GetClientSecret rf2 p2) := by
  refine ⟨?_, ?_, GetClientSecret_read_fail, ?_⟩
  · intro rf p h
    unfold GetClientSecret
    rw [if_pos h]
  · intro rf p c h1 h2 h3
    unfold GetClientSecret
    rw [if_neg (fun hcon => hcon.elim (fun hne => hne h1) h2), h3]
  · intro rf1 rf2 p1 p2 ha1 ha2 ha3 hb1 hb2 hb3
    rw [GetClientSecret_read_fail rf1 p1 ha1 ha2 ha3,
      GetClientSecret_read_fail rf2 p2 hb1 hb2 hb3]

/-- Witness for the client secret facts at concrete configurations. -/
theorem GetClientSecret_spec_witness :
    GetClientSecret (fun _ => none) ⟨"s3cr3t", "/cfg"⟩ = .ok "s3cr3t" ∧
    GetClientSecret (fun _ => some "filesecret") ⟨"", "/a"⟩ = .ok "filesecret" ∧
    GetClientSecret (fun _ => none) ⟨"", "/a"⟩ =
      .error "could not read client secret file" ∧
    GetClientSecret (fun _ => none) ⟨"", "/a"⟩ = GetClientSecret (fun _ => none) ⟨"", "/b"⟩ :=
  ⟨GetClientSecret_spec.1 _ _ (Or.inl (by decide)),
   GetClientSecret_spec.2.1 _ _ _ rfl (by decide) rfl,
   GetClientSecret_spec.2.2.1 _ _ rfl (by decide) rfl,
   GetClientSecret_spec.2.2.2 _ _ _ _ rfl (by decide) rfl rfl (by decide) rfl⟩

/-- C10: every denial path of GetEmailAddress returns the empty email
with a nil error, exactly like the no-primary-email outcome: a
configured team missing from the returned memberships, a configured
repository missing from the accessible repositories (with the team gate
passed or unconfigured), and an email list with no primary entry all
produce the identical pair of empty string and no error. -/
theorem GetEmailAddress_denials :
    (∀ (p : BitbucketProvider) (emails : List EmailRec) (teams : List String)
        (reposResp : Except String (List String)),
      p.Team ≠ "" → p.Team ∉ teams →
      GetEmailAddress p (.ok emails) (.ok teams) reposResp = ("", none)) ∧
    (∀ (p : BitbucketProvider) (emails : List EmailRec) (teams repos : List String),
      p.Team ≠ "" → p.Team ∈ teams →
      p.Repository ≠ "" → p.Repository ∉ repos →
      GetEmailAddress p (.ok emails) (.ok teams) (.ok repos) = ("", none)) ∧
    (∀ (emails : List EmailRec) (repos : List String)
        (teamsResp : Except String (List String)) (repo : String),
      repo ≠ "" → repo ∉ repos →
      GetEmailAddress ⟨"", repo⟩ (.ok emails) teamsResp (.ok repos) = ("", none)) ∧
    (∀ (emails : List EmailRec) (teamsResp reposResp : Except String (List String)),
      (∀ e ∈ emails, e.primary = false) →
      GetEmailAddress ⟨"", ""⟩ (.ok emails) teamsResp reposResp = ("", none)) := by
  refine ⟨?_, ?_, ?_, ?_⟩
  · intro p emails teams reposResp h1 h2
    simp [GetEmailAddress, h1, h2]
  · intro p emails teams repos h1 h2 h3 h4
    simp [GetEmailAddress, repoGateThenEmail, h1, h2, h3, h4]
  · intro emails repos teamsResp repo h1 h2
    simp [GetEmailAddress, repoGateThenEmail, h1, h2]
  · intro emails teamsResp reposResp h
    have hf : emails.find? (fun e => e.primary) = none := by
      rw [List.find?_eq_none]
      intro e he
      simp [h e he]
    simp [GetEmailAddress, repoGateThenEmail, firstPrimaryEmail, hf]

/-- Witness for the denial facts at concrete responses. -/
theorem GetEmailAddress_denials_witness :
    GetEmailAddress ⟨"team1", ""⟩ (.ok [⟨"a@b", true⟩]) (.ok ["team2"]) (.ok []) =
      ("", none) ∧
    GetEmailAddress ⟨"team1", "org/repo"⟩ (.ok [⟨"a@b", true⟩]) (.ok ["team1"])
      (.ok ["org/other"]) = ("", none) ∧
    GetEmailAddress ⟨"", "org/repo"⟩ (.ok [⟨"a@b", true⟩]) (.error "unused")
      (.ok ["org/other"]) = ("", none) ∧
    GetEmailAddress ⟨"", ""⟩ (.ok [⟨"a@b", false⟩]) (.ok []) (.ok []) = ("", none) :=
  ⟨GetEmailAddress_denials.1 ⟨"team1", ""⟩ _ _ _ (by decide) (by decide),
   GetEmailAddress_denials.2.1 ⟨"team1", "org/repo"⟩ _ _ _ (by decide) (by decide)
     (by decide) (by decide),
   GetEmailAddress_denials.2.2.1 _ _ _ "org/repo" (by decide) (by decide),
   GetEmailAddress_denials.2.2.2 _ _ _ (by
     intro e he
     rw [List.mem_singleton] at he
     subst he
     rfl)⟩
